import Mathlib

/-!
Verification development for the SafeQuanta-TLS proxy.

This file gives a shallow embedding, in Lean 4, of the parts of the
repository relevant to the frozen claims: the crypto provider
(src/crypto.rs), the fallback configuration (src/config.rs), the error
taxonomy (src/error.rs), the proxy server admission, session and relay
logic (src/proxy.rs) and the TLS manager (src/tls.rs).  External
primitive libraries (pqcrypto, openssl) are out of scope of the
repository; where their behaviour decides a claim they are modelled from
the specification, and such definitions carry a doc comment starting
with the words Modelled from the spec.
-/

/-- Error taxonomy of the repository (src/error.rs, enum SafeQuantaError).
Payloads that are foreign error types in Rust are carried as strings. -/
inductive SafeQuantaError where
  | Config (msg : String)
  | Tls (msg : String)
  | IoError (msg : String)
  | OpenSsl (msg : String)
  | Metrics (msg : String)
  | Proxy (msg : String)
  | Crypto (msg : String)
  | InvalidConfig (msg : String)
  | Handshake (msg : String)
  | Fallback (msg : String)
  deriving DecidableEq, Repr

/-- Byte strings are modelled as lists of naturals. -/
abbrev Bytes := List Nat

/-- KEM algorithm selection (src/config.rs, enum KemAlgorithm). -/
inductive KemAlgorithm where
  | Kyber768
  | Kyber1024
  deriving DecidableEq, Repr

/-- Signature algorithm selection (src/config.rs, enum SignatureAlgorithm). -/
inductive SignatureAlgorithm where
  | Dilithium3
  | Rsa3072
  deriving DecidableEq, Repr

/-- Interface of a key-encapsulation mechanism exactly as consumed by
src/crypto.rs: public-key parsing (PublicKey::from_bytes), fallible
encapsulation producing a shared secret and a ciphertext, decapsulation,
and keypair generation from a randomness seed.  Encapsulation takes an
explicit randomness argument because the spec states the operation draws
fresh randomness on the initiating side. -/
structure KEM where
  parsePk : Bytes → Option Bytes
  encaps : Bytes → Nat → Option (Bytes × Bytes)
  decaps : Bytes → Bytes → Option Bytes
  keypair : Nat → Bytes × Bytes

/-- Modelled from the spec: the Kyber768/Kyber1024 primitives live in the
external pqcrypto library, which the spec places out of scope ("KEM/signature
math is supplied by an external primitive library").  Per the glossary a KEM
is an "asymmetric primitive producing a shared secret via
encapsulate/decapsulate", and per section 4.1 encapsulation "draws fresh
randomness on the initiating side".  This is a minimal KEM with both
properties: the encapsulation randomness enters the shared secret, the
ciphertext transports it, and decapsulation with the matching secret key
recovers exactly the encapsulated secret. -/
def kyberModel : KEM where
  parsePk := fun bs => some bs
  encaps := fun pk r => some (r :: pk, [r])
  decaps := fun sk ct =>
    match ct with
    | [r] => some (r :: sk)
    | _ => none
  keypair := fun seed => ([seed], [seed])

/-- The kyberModel is a correct KEM: decapsulating an honestly produced
ciphertext with the matching secret key yields the encapsulated secret. -/
theorem kyberModel_correct (seed r : Nat) (ss ct : Bytes)
    (h : kyberModel.encaps (kyberModel.keypair seed).2 r = some (ss, ct)) :
    kyberModel.decaps (kyberModel.keypair seed).1 ct = some ss := by
  simp [kyberModel] at h
  simp [kyberModel, ← h.1, ← h.2]

/-- Crypto provider state (src/crypto.rs, struct CryptoProvider).  Key
material is carried as plain bytes; the reference-counted wrappers are
irrelevant to the claims. -/
structure CryptoProvider where
  kem_algorithm : KemAlgorithm
  signature_algorithm : SignatureAlgorithm
  private_key : Bytes
  public_key : Bytes
  certificate : Bytes
  kem_secret_key : Option Bytes
  kem_public_key : Option Bytes
  sign_secret_key : Option Bytes
  sign_public_key : Option Bytes
  deriving DecidableEq, Repr

/-- Length in bytes of a Dilithium3 signature (the fixed size enforced by
the external library's Signature::from_bytes). -/
def dilithium3_sig_len : Nat := 3293

/-- Pads or truncates a byte string to exactly n bytes. -/
def padTo (n : Nat) (bs : Bytes) : Bytes :=
  (bs ++ List.replicate n 0).take n

theorem padTo_length (n : Nat) (bs : Bytes) : (padTo n bs).length = n := by
  simp [padTo]

/-- Modelled from the spec: the Dilithium3 keypair primitive of the
external library; a fresh keypair is generated from a randomness seed
(the secret and public halves determine each other in the model). -/
def dilithium3_keypair (seed : Nat) : Bytes × Bytes := ([seed], [seed])

/-- Modelled from the spec: the Dilithium3 signing primitive of the
external library; it deterministically produces a signature of the fixed
length dilithium3_sig_len from the data and the secret key. -/
def dilithium3_sign_prim (data sk : Bytes) : Bytes :=
  padTo dilithium3_sig_len (data ++ 1 :: sk)

/-- Modelled from the spec: the Dilithium3 verification primitive of the
external library; on a structurally well-formed signature it is a total
boolean check ("verify returns false ... when one bit of a valid signature
is flipped"), true exactly on the signature the matching secret key
produces. -/
def dilithium3_verify_prim (sig data pk : Bytes) : Bool :=
  sig == dilithium3_sign_prim data pk

/-- Embeds CryptoProvider::new (src/crypto.rs lines 27 to 70).  The
certificate and key file reading and the PEM parsing are out-of-scope
collaborators ("on-disk certificate/key file mechanics"); new receives the
already-loaded bytes.  The quantum-safe keypairs are generated per
construction exactly as in the source: a KEM keypair for the configured KEM
algorithm, a Dilithium3 signing keypair when Dilithium3 is configured, and
no signing keypair at all when Rsa3072 is configured. -/
def CryptoProvider.new (kyber768 kyber1024 : KEM)
    (kem_algorithm : KemAlgorithm) (signature_algorithm : SignatureAlgorithm)
    (cert_bytes key_bytes pub_bytes : Bytes) (kem_seed sig_seed : Nat) :
    CryptoProvider :=
  let kemPair :=
    match kem_algorithm with
    | .Kyber768 => kyber768.keypair kem_seed
    | .Kyber1024 => kyber1024.keypair kem_seed
  let signPair : Option Bytes × Option Bytes :=
    match signature_algorithm with
    | .Dilithium3 =>
      let p := dilithium3_keypair sig_seed
      (some p.1, some p.2)
    | .Rsa3072 => (none, none)
  { kem_algorithm := kem_algorithm
    signature_algorithm := signature_algorithm
    private_key := key_bytes
    public_key := pub_bytes
    certificate := cert_bytes
    kem_secret_key := some kemPair.1
    kem_public_key := some kemPair.2
    sign_secret_key := signPair.1
    sign_public_key := signPair.2 }

/-- Embeds CryptoProvider::kyber768_key_exchange (src/crypto.rs lines 96 to
104): parse the peer public key (Crypto error on failure), encapsulate
against it with fresh randomness (Crypto error on failure), and return the
shared-secret bytes.  The ciphertext component of the encapsulation is
discarded, and no field of self is consulted. -/
def CryptoProvider.kyber768_key_exchange (kyber768 : KEM)
    (self : CryptoProvider) (peer_public_key : Bytes) (r : Nat) :
    Except SafeQuantaError Bytes :=
  match kyber768.parsePk peer_public_key with
  | none => .error (.Crypto "Invalid peer public key")
  | some peer_pk =>
    match kyber768.encaps peer_pk r with
    | none => .error (.Crypto "Encapsulation failed")
    | some shared_secret => .ok shared_secret.1

/-- Embeds CryptoProvider::kyber1024_key_exchange (src/crypto.rs lines 107
to 115), identical in structure to the Kyber768 case. -/
def CryptoProvider.kyber1024_key_exchange (kyber1024 : KEM)
    (self : CryptoProvider) (peer_public_key : Bytes) (r : Nat) :
    Except SafeQuantaError Bytes :=
  match kyber1024.parsePk peer_public_key with
  | none => .error (.Crypto "Invalid peer public key")
  | some peer_pk =>
    match kyber1024.encaps peer_pk r with
    | none => .error (.Crypto "Encapsulation failed")
    | some shared_secret => .ok shared_secret.1

/-- Embeds CryptoProvider::key_exchange (src/crypto.rs lines 72 to 77):
dispatch on the configured KEM algorithm. -/
def CryptoProvider.key_exchange (kyber768 kyber1024 : KEM)
    (self : CryptoProvider) (peer_public_key : Bytes) (r : Nat) :
    Except SafeQuantaError Bytes :=
  match self.kem_algorithm with
  | .Kyber768 => self.kyber768_key_exchange kyber768 peer_public_key r
  | .Kyber1024 => self.kyber1024_key_exchange kyber1024 peer_public_key r

/-- Embeds CryptoProvider::dilithium3_sign (src/crypto.rs lines 118 to
126): sign with the stored Dilithium3 secret key when present, otherwise a
Crypto error. -/
def CryptoProvider.dilithium3_sign (self : CryptoProvider) (data : Bytes) :
    Except SafeQuantaError Bytes :=
  match self.sign_secret_key with
  | some sk => .ok (dilithium3_sign_prim data sk)
  | none => .error (.Crypto "No signing key available")

/-- Embeds CryptoProvider::dilithium3_verify (src/crypto.rs lines 128 to
138): with the stored public key present, Signature::from_bytes enforces
the structural (fixed-length) well-formedness of the signature, failing
with a Crypto error; a well-formed signature is then checked by the
verification primitive, whose boolean outcome is returned. -/
def CryptoProvider.dilithium3_verify (self : CryptoProvider)
    (data signature : Bytes) : Except SafeQuantaError Bool :=
  match self.sign_public_key with
  | some pk =>
    if signature.length = dilithium3_sig_len then
      .ok (dilithium3_verify_prim signature data pk)
    else
      .error (.Crypto "Invalid signature")
  | none => .error (.Crypto "No verification key available")

/-- Embeds CryptoProvider::rsa3072_sign (src/crypto.rs lines 141 to 144):
signs with the classical private_key through the openssl signer; any
openssl failure is converted by the From instance of src/error.rs into an
OpenSsl error, never a Crypto one.  The openssl signer itself is an
external primitive and is passed in as a parameter. -/
def CryptoProvider.rsa3072_sign
    (signer : Bytes → Bytes → Except String Bytes)
    (self : CryptoProvider) (data : Bytes) : Except SafeQuantaError Bytes :=
  match signer self.private_key data with
  | .ok sig => .ok sig
  | .error e => .error (.OpenSsl e)

/-- Embeds CryptoProvider::rsa3072_verify (src/crypto.rs lines 146 to 149):
verifies with the classical public_key through the openssl verifier; any
openssl failure is converted into an OpenSsl error, never a Crypto one. -/
def CryptoProvider.rsa3072_verify
    (verifier : Bytes → Bytes → Bytes → Except String Bool)
    (self : CryptoProvider) (data signature : Bytes) :
    Except SafeQuantaError Bool :=
  match verifier self.public_key signature data with
  | .ok b => .ok b
  | .error e => .error (.OpenSsl e)

/-- Embeds CryptoProvider::sign (src/crypto.rs lines 80 to 85): dispatch on
the configured signature algorithm. -/
def CryptoProvider.sign (signer : Bytes → Bytes → Except String Bytes)
    (self : CryptoProvider) (data : Bytes) : Except SafeQuantaError Bytes :=
  match self.signature_algorithm with
  | .Dilithium3 => self.dilithium3_sign data
  | .Rsa3072 => self.rsa3072_sign signer data

/-- Embeds CryptoProvider::verify (src/crypto.rs lines 88 to 93): dispatch
on the configured signature algorithm. -/
def CryptoProvider.verify
    (verifier : Bytes → Bytes → Bytes → Except String Bool)
    (self : CryptoProvider) (data signature : Bytes) :
    Except SafeQuantaError Bool :=
  match self.signature_algorithm with
  | .Dilithium3 => self.dilithium3_verify data signature
  | .Rsa3072 => self.rsa3072_verify verifier data signature

/-- Tests whether a crypto-provider result is a SafeQuantaError.Crypto
failure. -/
def isCryptoError {α : Type} : Except SafeQuantaError α → Bool
  | .error (.Crypto _) => true
  | _ => false

/-- Fallback strategy selection (src/config.rs, enum FallbackStrategy). -/
inductive FallbackStrategy where
  | Reject
  | Redirect
  | ClassicTls
  deriving DecidableEq, Repr

/-- Fallback configuration (src/config.rs, struct FallbackConfig). -/
structure FallbackConfig where
  enabled : Bool
  strategy : FallbackStrategy
  non_pqc_port : Option Nat
  deriving DecidableEq, Repr

/-- Per-connection fallback decision (spec section 3: one of Reject,
Redirect(port), ClassicTls, or proceeding with the hybrid handshake for a
capable peer). -/
inductive FallbackDecision where
  | Reject
  | Redirect (port : Nat)
  | ClassicTls
  | ProceedHybrid
  deriving DecidableEq, Repr

/-- Modelled from the spec: no decide implementation exists under src; only
the FallbackConfig and FallbackStrategy declarations are there
(src/config.rs lines 40 to 52).  The function follows spec section 4.2
word for word: a capable peer always proceeds with the hybrid handshake; a
non-capable peer is rejected under Reject, redirected under Redirect when a
port is configured and rejected otherwise, and proceeds classically under
ClassicTls. -/
def FallbackPolicy.decide (peerSupportsPqc : Bool)
    (strategy : FallbackStrategy) (configuredNonPqcPort : Option Nat) :
    FallbackDecision :=
  if peerSupportsPqc then
    .ProceedHybrid
  else
    match strategy with
    | .Reject => .Reject
    | .Redirect =>
      match configuredNonPqcPort with
      | some p => .Redirect p
      | none => .Reject
    | .ClassicTls => .ClassicTls

/-- Proxy configuration as consumed by src/proxy.rs (fields listen_addr,
target_addr, target_host, max_connections). -/
structure ProxyConfig where
  listen_addr : String
  target_addr : String
  target_host : String
  max_connections : Nat
  deriving DecidableEq, Repr

/-- State of the connection-admission semaphore together with the session
accounting: available counts the free permits of the semaphore created by
ProxyServer::new (Semaphore::new(max_connections)), active counts the
sessions currently holding a permit (past the acquire of
handle_connection), waiting counts the connection attempts suspended in
acquire. -/
structure AdmissionState where
  available : Nat
  active : Nat
  waiting : Nat
  deriving DecidableEq, Repr

/-- The admission state created by ProxyServer::new (src/proxy.rs lines 29
to 36): all max_connections permits free, no session active, none
waiting. -/
def ProxyServer.initialAdmission (config : ProxyConfig) : AdmissionState :=
  { available := config.max_connections, active := 0, waiting := 0 }

/-- One step of the admission protocol of src/proxy.rs: a new connection
attempt arrives and suspends in acquire (line 84); a waiting attempt is
granted a permit when one is free, consuming the permit; a session ends and
its permit is dropped, returning to the semaphore. -/
inductive AdmissionStep : AdmissionState → AdmissionState → Prop where
  | arrive (s : AdmissionState) :
      AdmissionStep s { s with waiting := s.waiting + 1 }
  | grant (s : AdmissionState) (hw : 0 < s.waiting) (ha : 0 < s.available) :
      AdmissionStep s
        { available := s.available - 1, active := s.active + 1,
          waiting := s.waiting - 1 }
  | release (s : AdmissionState) (ha : 0 < s.active) :
      AdmissionStep s
        { available := s.available + 1, active := s.active - 1,
          waiting := s.waiting }

/-- Reachability of admission states from the state built by
ProxyServer::new for a given configuration. -/
inductive AdmissionReachable (config : ProxyConfig) : AdmissionState → Prop where
  | init : AdmissionReachable config (ProxyServer.initialAdmission config)
  | step {s s' : AdmissionState} :
      AdmissionReachable config s → AdmissionStep s s' →
      AdmissionReachable config s'

/-- Permit accounting events of a session. -/
inductive PermitEvent where
  | acquire
  | release
  deriving DecidableEq, Repr

/-- Environment of one handle_connection run: the outcome of the semaphore
acquire (false only if the semaphore were closed), of the TLS accept
toward the client, of the TCP connect and TLS connect toward the target,
and the error, if any, of whichever relay direction the select! block saw
finish first (src/proxy.rs lines 108 to 121 log such an error and fall
through). -/
structure SessionEnv where
  acquire_ok : Bool
  tls_accept : Except SafeQuantaError Unit
  target_connect : Except SafeQuantaError Unit
  target_tls : Except SafeQuantaError Unit
  relay_error : Option SafeQuantaError

/-- Embeds ProxyServer::handle_connection (src/proxy.rs lines 75 to 127)
together with its permit accounting.  The permit is a scoped value bound at
entry (let _permit = connection_limit.acquire().await?) and dropped when
the function returns on any path, early question-mark returns included;
the drop is therefore modelled once, at function exit, independent of the
path taken.  Relay errors are logged inside the select! block and
swallowed, so the function returns Ok after the relay phase regardless of
relay_error. -/
def ProxyServer.handle_connection (env : SessionEnv) :
    Except SafeQuantaError Unit × List PermitEvent :=
  if env.acquire_ok then
    let body : Except SafeQuantaError Unit :=
      match env.tls_accept with
      | .error e => .error e
      | .ok _ =>
        match env.target_connect with
        | .error e => .error e
        | .ok _ =>
          match env.target_tls with
          | .error e => .error e
          | .ok _ => .ok ()
    (body, [PermitEvent.acquire, PermitEvent.release])
  else
    (.error (.Proxy "semaphore closed"), [])

/-- One iteration of the relay loop of proxy_data as seen from outside: a
read that fails, or a read returning a chunk (possibly empty, an empty
chunk being the zero-length read of a peer half-close) followed, when the
chunk is non-empty, by a write_all that either completes or fails. -/
inductive RelayEvent where
  | readError (msg : String)
  | chunk (data : Bytes) (writeOk : Bool)
  deriving DecidableEq, Repr

/-- Result of one directional relay loop: the bytes delivered to the
writer, the accumulated byte counter total_bytes, and whether the loop
ended cleanly (zero-length read) rather than by an I/O error. -/
structure RelayResult where
  written : Bytes
  total_bytes : Nat
  ok : Bool
  deriving DecidableEq, Repr

/-- The fixed size of the transfer buffer of proxy_data
(src/proxy.rs line 141, vec![0u8; 8192]). -/
def proxyBufferSize : Nat := 8192

/-- Embeds ProxyServer::proxy_data (src/proxy.rs lines 130 to 158): loop
reading into the fixed buffer; a zero-length read breaks the loop; each
chunk is written fully (write_all) before the next read; total_bytes is
incremented by the chunk length only after the write completes; a read or
write failure ends the loop with an error, without counting the failed
chunk. -/
def ProxyServer.proxy_data : List RelayEvent → RelayResult
  | [] => { written := [], total_bytes := 0, ok := true }
  | .readError _ :: _ => { written := [], total_bytes := 0, ok := false }
  | .chunk data writeOk :: rest =>
    if data.isEmpty then
      { written := [], total_bytes := 0, ok := true }
    else if writeOk then
      let r := ProxyServer.proxy_data rest
      { written := data ++ r.written,
        total_bytes := data.length + r.total_bytes, ok := r.ok }
    else
      { written := [], total_bytes := 0, ok := false }

/-- The bytes the reader produces up to its half-close (the first
zero-length read or read error). -/
def readerBytes : List RelayEvent → Bytes
  | [] => []
  | .readError _ :: _ => []
  | .chunk data _ :: rest =>
    if data.isEmpty then [] else data ++ readerBytes rest

/-- An event of a clean relay run: a successfully read chunk whose write
completed. -/
def cleanEvent : RelayEvent → Bool
  | .chunk _ true => true
  | _ => false

/-- One observation of the accept loop of ProxyServer::start: either
accept() returned a connection (whose spawned session then succeeded or
failed), or accept() itself failed. -/
inductive AcceptEvent where
  | accepted (sessionFails : Bool)
  | acceptError (e : SafeQuantaError)

/-- Outcome of running the accept loop over a finite prefix of
observations: terminated is the error start returned with, if the loop
exited; sessionsSpawned counts the connections handed to tokio::spawn;
sessionsFailed counts the spawned sessions whose handler returned an
error (logged at the session boundary, src/proxy.rs lines 56 to 71). -/
structure StartResult where
  terminated : Option SafeQuantaError
  sessionsSpawned : Nat
  sessionsFailed : Nat
  deriving DecidableEq, Repr

/-- Embeds the accept loop of ProxyServer::start (src/proxy.rs lines 43 to
71): each accepted connection is spawned as an independent session whose
error is logged inside the spawned task; the question mark on
listener.accept().await? propagates an accept failure out of start,
ending the loop. -/
def acceptLoop : List AcceptEvent → StartResult
  | [] => { terminated := none, sessionsSpawned := 0, sessionsFailed := 0 }
  | .acceptError e :: _ =>
    { terminated := some e, sessionsSpawned := 0, sessionsFailed := 0 }
  | .accepted fails :: rest =>
    let r := acceptLoop rest
    { terminated := r.terminated,
      sessionsSpawned := r.sessionsSpawned + 1,
      sessionsFailed := r.sessionsFailed + (if fails then 1 else 0) }

/-- Embeds ProxyServer::start (src/proxy.rs lines 39 to 72): bind first
(fatal on failure, via the question mark on TcpListener::bind), then run
the accept loop. -/
def ProxyServer.start (bind : Except SafeQuantaError Unit)
    (events : List AcceptEvent) : StartResult :=
  match bind with
  | .error e =>
    { terminated := some e, sessionsSpawned := 0, sessionsFailed := 0 }
  | .ok _ => acceptLoop events

/-- The accept error the loop first encounters, if any. -/
def firstAcceptError : List AcceptEvent → Option SafeQuantaError
  | [] => none
  | .acceptError e :: _ => some e
  | .accepted _ :: rest => firstAcceptError rest

/-- The number of connections accepted before the first accept error. -/
def acceptedBeforeError : List AcceptEvent → Nat
  | [] => 0
  | .acceptError _ :: _ => 0
  | .accepted _ :: rest => acceptedBeforeError rest + 1

/-- A TLS stream handle. -/
abbrev TlsStream := Nat

/-- Environment of one TlsManager::accept call: whether the peer would
advertise post-quantum capability (nothing in src/tls.rs ever inspects
this), and the outcome of the classical rustls server handshake
(self.acceptor.accept). -/
structure TlsAcceptEnv where
  peer_supports_pqc : Bool
  handshake : Except SafeQuantaError TlsStream

/-- Result of TlsManager::accept, together with a faithful record of which
collaborators the function invoked on the way. -/
structure TlsAcceptResult where
  result : Except SafeQuantaError TlsStream
  invoked_fallback : Bool
  invoked_key_exchange : Bool

/-- Embeds TlsManager::accept (src/tls.rs lines 53 to 64): it performs the
classical rustls handshake, records metrics, and returns the stream; the
body contains no call to FallbackPolicy, to CryptoProvider::key_exchange,
or to perform_quantum_safe_key_exchange, and never inspects any
post-quantum capability of the peer, so both invocation flags are false on
every path. -/
def TlsManager.accept (env : TlsAcceptEnv) : TlsAcceptResult :=
  match env.handshake with
  | .error e =>
    { result := .error e, invoked_fallback := false,
      invoked_key_exchange := false }
  | .ok s =>
    { result := .ok s, invoked_fallback := false,
      invoked_key_exchange := false }

/-- Embeds TlsManager::perform_quantum_safe_key_exchange (src/tls.rs lines
86 to 89): an unconditional Tls error, the function body being a stub. -/
def TlsManager.perform_quantum_safe_key_exchange :
    Except SafeQuantaError Bytes :=
  .error (.Tls "Quantum-safe key exchange not implemented yet")

/-- A Kyber768 provider constructed with KEM seed 1 (its KEM public key is
the byte string [1] in the model). -/
def provA : CryptoProvider :=
  CryptoProvider.new kyberModel kyberModel .Kyber768 .Dilithium3
    [0] [0] [0] 1 0

/-- An independently constructed Kyber768 provider with KEM seed 2 (KEM
public key [2] in the model). -/
def provB : CryptoProvider :=
  CryptoProvider.new kyberModel kyberModel .Kyber768 .Dilithium3
    [0] [0] [0] 2 0

/-- A Kyber1024 provider with KEM seed 1. -/
def provA1024 : CryptoProvider :=
  CryptoProvider.new kyberModel kyberModel .Kyber1024 .Dilithium3
    [0] [0] [0] 1 0

/-- An independently constructed Kyber1024 provider with KEM seed 2. -/
def provB1024 : CryptoProvider :=
  CryptoProvider.new kyberModel kyberModel .Kyber1024 .Dilithium3
    [0] [0] [0] 2 0

/-- C1: the claim states that two independently constructed providers of
the same KEM algorithm calling key_exchange on each other's KEM public
keys derive equal shared secrets whenever both calls succeed.  The code
cannot deliver this: key_exchange encapsulates afresh against the peer
key, discards the ciphertext, and never decapsulates with the stored
kem_secret_key, so each side holds an independent fresh secret.  Here,
for both Kyber768 and Kyber1024 providers, both calls succeed and the two
secrets differ, even though the underlying KEM is correct
(kyberModel_correct). -/
theorem c1_key_exchange_secrets_differ :
    provA.kem_algorithm = KemAlgorithm.Kyber768 ∧
    provB.kem_algorithm = KemAlgorithm.Kyber768 ∧
    provA.kem_public_key = some [1] ∧
    provB.kem_public_key = some [2] ∧
    CryptoProvider.key_exchange kyberModel kyberModel provA [2] 3 =
      Except.ok [3, 2] ∧
    CryptoProvider.key_exchange kyberModel kyberModel provB [1] 4 =
      Except.ok [4, 1] ∧
    ([3, 2] : Bytes) ≠ [4, 1] ∧
    CryptoProvider.key_exchange kyberModel kyberModel provA1024 [2] 3 =
      Except.ok [3, 2] ∧
    CryptoProvider.key_exchange kyberModel kyberModel provB1024 [1] 4 =
      Except.ok [4, 1] :=
  ⟨rfl, rfl, rfl, rfl, rfl, rfl, by decide, rfl, rfl⟩

/-- The provider provA with a different stored KEM secret key and
otherwise identical fields. -/
def provA_altSecret : CryptoProvider :=
  { provA with kem_secret_key := some [99] }

/-- C2: key_exchange depends only on the configured KEM algorithm, the
peer public key and the fresh encapsulation randomness; two providers
with the same algorithm but arbitrary other fields (in particular,
different stored kem_secret_key values) behave identically on every
input, for every pair of KEM primitives. -/
theorem c2_key_exchange_ignores_secret_key (kyber768 kyber1024 : KEM)
    (p1 p2 : CryptoProvider) (peer : Bytes) (r : Nat)
    (h : p1.kem_algorithm = p2.kem_algorithm) :
    CryptoProvider.key_exchange kyber768 kyber1024 p1 peer r =
      CryptoProvider.key_exchange kyber768 kyber1024 p2 peer r := by
  unfold CryptoProvider.key_exchange
  rw [← h]
  cases p1.kem_algorithm <;> rfl

/-- Witness for C2: provA and provA_altSecret differ exactly in their
stored KEM secret key, share the algorithm, and key_exchange coincides. -/
theorem c2_witness :
    provA.kem_algorithm = provA_altSecret.kem_algorithm ∧
    provA.kem_secret_key ≠ provA_altSecret.kem_secret_key ∧
    CryptoProvider.key_exchange kyberModel kyberModel provA [7] 5 =
      CryptoProvider.key_exchange kyberModel kyberModel provA_altSecret
        [7] 5 := by
  refine ⟨rfl, by decide, ?_⟩
  exact c2_key_exchange_ignores_secret_key kyberModel kyberModel provA
    provA_altSecret [7] 5 rfl

/-- In every reachable admission state, the permits held by active
sessions and the free permits of the semaphore together are exactly the
configured capacity: the semaphore only moves permits between the two
sides, never mints one. -/
theorem admission_invariant (config : ProxyConfig) (s : AdmissionState)
    (h : AdmissionReachable config s) :
    s.active + s.available = config.max_connections := by
  induction h with
  | init => simp [ProxyServer.initialAdmission]
  | step _ hstep ih =>
    cases hstep with
    | arrive => exact ih
    | grant hw ha =>
      dsimp only at ih ⊢
      omega
    | release ha =>
      dsimp only at ih ⊢
      omega

/-- C3: in every state reachable from the admission state built by
ProxyServer::new, the number of sessions concurrently holding a
connection permit never exceeds the configured max_connections, however
many connection attempts have arrived; the surplus attempts remain
waiting. -/
theorem c3_admission_bound (config : ProxyConfig) (s : AdmissionState)
    (h : AdmissionReachable config s) :
    s.active ≤ config.max_connections := by
  have hinv := admission_invariant config s h
  omega

/-- A proxy configuration with a connection limit of two. -/
def smallProxyConfig : ProxyConfig :=
  { listen_addr := "127.0.0.1:0", target_addr := "127.0.0.1:0",
    target_host := "localhost", max_connections := 2 }

/-- Witness for C3: with max_connections = 2 and five simultaneous
attempts (2 + K for K = 3), the state with two active sessions and three
waiting attempts is reachable, and the bound holds there. -/
theorem c3_witness :
    AdmissionReachable smallProxyConfig
      { available := 0, active := 2, waiting := 3 } ∧
    (AdmissionState.mk 0 2 3).active ≤ smallProxyConfig.max_connections := by
  have h0 : AdmissionReachable smallProxyConfig
      { available := 2, active := 0, waiting := 0 } :=
    AdmissionReachable.init
  have h1 : AdmissionReachable smallProxyConfig
      { available := 2, active := 0, waiting := 1 } :=
    h0.step (AdmissionStep.arrive _)
  have h2 : AdmissionReachable smallProxyConfig
      { available := 2, active := 0, waiting := 2 } :=
    h1.step (AdmissionStep.arrive _)
  have h3 : AdmissionReachable smallProxyConfig
      { available := 2, active := 0, waiting := 3 } :=
    h2.step (AdmissionStep.arrive _)
  have h4 : AdmissionReachable smallProxyConfig
      { available := 2, active := 0, waiting := 4 } :=
    h3.step (AdmissionStep.arrive _)
  have h5 : AdmissionReachable smallProxyConfig
      { available := 2, active := 0, waiting := 5 } :=
    h4.step (AdmissionStep.arrive _)
  have h6 : AdmissionReachable smallProxyConfig
      { available := 1, active := 1, waiting := 4 } :=
    h5.step (AdmissionStep.grant _ (by decide) (by decide))
  have h7 : AdmissionReachable smallProxyConfig
      { available := 0, active := 2, waiting := 3 } :=
    h6.step (AdmissionStep.grant _ (by decide) (by decide))
  exact ⟨h7, c3_admission_bound smallProxyConfig _ h7⟩

/-- C4: on every run of handle_connection the scoped permit is released
exactly as many times as it is acquired, and exactly once whenever the
acquire succeeded, on every exit path: normal completion, TLS accept
failure, upstream connect failure, upstream TLS failure, and relay error
(which the select! block swallows) are all instances of the universally
quantified environment. -/
theorem c4_permit_released_once (env : SessionEnv) :
    (ProxyServer.handle_connection env).2.count PermitEvent.release =
      (ProxyServer.handle_connection env).2.count PermitEvent.acquire ∧
    (ProxyServer.handle_connection env).2.count PermitEvent.release =
      (if env.acquire_ok then 1 else 0) := by
  unfold ProxyServer.handle_connection
  by_cases h : env.acquire_ok = true
  · simp only [h, if_true]
    exact ⟨by decide, by decide⟩
  · simp only [h, if_false, Bool.false_eq_true]
    exact ⟨by decide, by decide⟩

/-- The byte counter of proxy_data always equals the number of bytes
delivered to the writer, on clean and on failing runs alike. -/
theorem proxy_data_counter :
    ∀ evs : List RelayEvent,
      (ProxyServer.proxy_data evs).total_bytes =
        (ProxyServer.proxy_data evs).written.length := by
  intro evs
  induction evs with
  | nil => rfl
  | cons e rest ih =>
    cases e with
    | readError msg => rfl
    | chunk data writeOk =>
      by_cases hd : data.isEmpty
      · simp [ProxyServer.proxy_data, hd]
      · by_cases hw : writeOk = true
        · simp [ProxyServer.proxy_data, hd, hw, ih]
        · simp [ProxyServer.proxy_data, hd, hw]

/-- On a run without read errors or write failures the bytes delivered to
the writer are exactly the bytes the reader produced up to its
half-close. -/
theorem proxy_data_content :
    ∀ evs : List RelayEvent, (∀ e ∈ evs, cleanEvent e = true) →
      (ProxyServer.proxy_data evs).written = readerBytes evs := by
  intro evs
  induction evs with
  | nil => intro _; rfl
  | cons e rest ih =>
    intro h
    cases e with
    | readError msg =>
      have hc := h (RelayEvent.readError msg) (List.mem_cons_self _ _)
      simp [cleanEvent] at hc
    | chunk data writeOk =>
      cases writeOk with
      | false =>
        have hc := h (RelayEvent.chunk data false) (List.mem_cons_self _ _)
        simp [cleanEvent] at hc
      | true =>
        have ih' := ih (fun x hx => h x (List.mem_cons_of_mem _ hx))
        by_cases hd : data.isEmpty
        · simp [ProxyServer.proxy_data, readerBytes, hd]
        · simp [ProxyServer.proxy_data, readerBytes, hd, ih']

/-- C5: proxy_data uses the fixed 8192-byte buffer, its accumulated
counter equals the number of bytes read and forwarded on every run, and
on a run without I/O failures the bytes delivered to the writer equal, in
content and order, the bytes the reader produced up to half-close. -/
theorem c5_relay_faithful (evs : List RelayEvent) :
    proxyBufferSize = 8192 ∧
    (ProxyServer.proxy_data evs).total_bytes =
      (ProxyServer.proxy_data evs).written.length ∧
    ((∀ e ∈ evs, cleanEvent e = true) →
      (ProxyServer.proxy_data evs).written = readerBytes evs) :=
  ⟨rfl, proxy_data_counter evs, proxy_data_content evs⟩

/-- A clean three-read relay run: two data chunks, then the zero-length
read of the peer half-close. -/
def cleanRun : List RelayEvent :=
  [RelayEvent.chunk [1, 2, 3] true, RelayEvent.chunk [4] true,
   RelayEvent.chunk [] true]

/-- Witness for C5: on the concrete clean run the hypothesis holds and the
delivered bytes equal the read bytes. -/
theorem c5_witness :
    (∀ e ∈ cleanRun, cleanEvent e = true) ∧
    (ProxyServer.proxy_data cleanRun).written = readerBytes cleanRun ∧
    (ProxyServer.proxy_data cleanRun).total_bytes = 4 := by
  refine ⟨by decide, (c5_relay_faithful cleanRun).2.2 (by decide), by decide⟩

/-- Counterexample for C6: the claim states a transient accept() failure
is logged and the accept loop continues.  In the code the question mark on
listener.accept().await? propagates the failure out of start: after an
accept error the loop is terminated and the following connection is never
accepted. -/
theorem c6_counterexample :
    ProxyServer.start (Except.ok ())
        [AcceptEvent.acceptError (SafeQuantaError.IoError "transient"),
         AcceptEvent.accepted false] =
      { terminated := some (SafeQuantaError.IoError "transient"),
        sessionsSpawned := 0, sessionsFailed := 0 } ∧
    (ProxyServer.start (Except.ok ())
        [AcceptEvent.acceptError (SafeQuantaError.IoError "transient"),
         AcceptEvent.accepted false]).terminated ≠ none := by
  refine ⟨rfl, by decide⟩

/-- C6 as amended: bind failure is fatal; after a successful bind the
accept loop runs until the first accept() failure and terminates by
propagating exactly that error out of start, having spawned one
independent session per connection accepted before it; errors of spawned
sessions are counted and logged at the session boundary and never
terminate the accept loop (termination and spawn count are independent of
which sessions fail). -/
theorem c6_accept_loop_behaviour (e : SafeQuantaError)
    (events : List AcceptEvent) :
    ProxyServer.start (Except.error e) events =
      { terminated := some e, sessionsSpawned := 0, sessionsFailed := 0 } ∧
    ProxyServer.start (Except.ok ()) events = acceptLoop events ∧
    (acceptLoop events).terminated = firstAcceptError events ∧
    (acceptLoop events).sessionsSpawned = acceptedBeforeError events := by
  refine ⟨rfl, rfl, ?_, ?_⟩
  · induction events with
    | nil => rfl
    | cons ev rest ih =>
      cases ev with
      | accepted fails => simp [acceptLoop, firstAcceptError, ih]
      | acceptError err => rfl
  · induction events with
    | nil => rfl
    | cons ev rest ih =>
      cases ev with
      | accepted fails => simp [acceptLoop, acceptedBeforeError, ih]
      | acceptError err => rfl

/-- Counterexample for C7: a peer without the post-quantum capability
signal completes TlsManager::accept successfully without FallbackPolicy
ever being invoked, and the only quantum-safe key exchange routine of the
TLS manager is a stub that unconditionally fails; the claimed
capability-detection, key-exchange and fallback behaviour does not exist
in the code. -/
theorem c7_counterexample :
    (TlsManager.accept
        { peer_supports_pqc := false, handshake := Except.ok 0 }).result =
      Except.ok 0 ∧
    (TlsManager.accept
        { peer_supports_pqc := false,
          handshake := Except.ok 0 }).invoked_fallback = false ∧
    (TlsManager.accept
        { peer_supports_pqc := false,
          handshake := Except.ok 0 }).invoked_key_exchange = false ∧
    TlsManager.perform_quantum_safe_key_exchange =
      Except.error
        (SafeQuantaError.Tls "Quantum-safe key exchange not implemented yet") :=
  ⟨rfl, rfl, rfl, rfl⟩

/-- C7 as amended: TlsManager::accept performs only the classical server
handshake, returning the established stream or the handshake's error, and
on no path does it detect peer post-quantum capability, invoke
FallbackPolicy, or invoke a key exchange; the quantum-safe key exchange
helper always fails with a Tls error. -/
theorem c7_accept_classical_only (env : TlsAcceptEnv) :
    TlsManager.accept env =
      { result := env.handshake, invoked_fallback := false,
        invoked_key_exchange := false } ∧
    TlsManager.perform_quantum_safe_key_exchange =
      Except.error
        (SafeQuantaError.Tls "Quantum-safe key exchange not implemented yet") := by
  refine ⟨?_, rfl⟩
  obtain ⟨p, hs⟩ := env
  cases hs <;> rfl

/-- A provider configured with the classical fallback signature algorithm
Rsa3072; as in CryptoProvider::new, no post-quantum signing keypair is
generated for it. -/
def provRsa : CryptoProvider :=
  CryptoProvider.new kyberModel kyberModel .Kyber768 .Rsa3072
    [0] [0] [0] 1 0

/-- A provider configured with Dilithium3; new generates its signing
keypair (seed 0, so both halves are [0] in the model). -/
def provDil : CryptoProvider :=
  CryptoProvider.new kyberModel kyberModel .Kyber768 .Dilithium3
    [0] [0] [0] 1 0

/-- An openssl verifier behaviour that rejects the input, as openssl does
on a signature of the wrong length for the key. -/
def opensslRejectingVerifier : Bytes → Bytes → Bytes → Except String Bool :=
  fun _ _ _ => Except.error "wrong signature length"

/-- An openssl signer behaviour that signs with the classical key. -/
def opensslSigner : Bytes → Bytes → Except String Bytes :=
  fun key data => Except.ok (key ++ data)

/-- Counterexample for C8: with the configured signature algorithm
Rsa3072 and the structurally truncated signature [1, 2, 3], verify fails
with an OpenSsl error (every openssl failure is converted by the From
instance of src/error.rs), not with the Crypto error the claim requires
for every configured algorithm. -/
theorem c8_counterexample :
    provRsa.signature_algorithm = SignatureAlgorithm.Rsa3072 ∧
    CryptoProvider.verify opensslRejectingVerifier provRsa [1] [1, 2, 3] =
      Except.error (SafeQuantaError.OpenSsl "wrong signature length") ∧
    isCryptoError
      (CryptoProvider.verify opensslRejectingVerifier provRsa [1]
        [1, 2, 3]) = false :=
  ⟨rfl, rfl, rfl⟩

/-- C8 as amended: for Dilithium3, verify fails with a Crypto error
exactly on structurally malformed (wrong-length) signature bytes and
returns the boolean primitive verdict (false for well-formed but
cryptographically invalid signatures) otherwise; for Rsa3072, verify
never produces a Crypto error: primitive failures surface as OpenSsl
errors, and a well-formed but invalid signature is reported as Ok false. -/
theorem c8_verify_error_discipline (self : CryptoProvider) (pk : Bytes)
    (verifier : Bytes → Bytes → Bytes → Except String Bool)
    (data sig : Bytes) :
    (self.signature_algorithm = SignatureAlgorithm.Dilithium3 →
      self.sign_public_key = some pk →
      ((sig.length ≠ dilithium3_sig_len →
        CryptoProvider.verify verifier self data sig =
          Except.error (SafeQuantaError.Crypto "Invalid signature")) ∧
       (sig.length = dilithium3_sig_len →
        CryptoProvider.verify verifier self data sig =
          Except.ok (dilithium3_verify_prim sig data pk)))) ∧
    (self.signature_algorithm = SignatureAlgorithm.Rsa3072 →
      (isCryptoError (CryptoProvider.verify verifier self data sig) =
        false ∧
       (verifier self.public_key sig data = Except.ok false →
        CryptoProvider.verify verifier self data sig =
          Except.ok false))) := by
  constructor
  · intro halg hpk
    constructor <;> intro hlen <;>
      simp [CryptoProvider.verify, halg, CryptoProvider.dilithium3_verify,
        hpk, hlen]
  · intro halg
    constructor
    · simp only [CryptoProvider.verify, halg, CryptoProvider.rsa3072_verify]
      cases hv : verifier self.public_key sig data <;>
        simp [isCryptoError]
    · intro hv
      simp [CryptoProvider.verify, halg, CryptoProvider.rsa3072_verify, hv]

/-- Witness for C8: a Dilithium3 provider with its generated public key;
the signature padTo dilithium3_sig_len [9] is structurally well-formed
(correct length) but cryptographically invalid, and verify returns
Ok false, not an error; the truncated signature [9] produces the Crypto
error. -/
theorem c8_witness :
    provDil.signature_algorithm = SignatureAlgorithm.Dilithium3 ∧
    provDil.sign_public_key = some [0] ∧
    (padTo dilithium3_sig_len [9]).length = dilithium3_sig_len ∧
    CryptoProvider.verify opensslRejectingVerifier provDil [5]
      (padTo dilithium3_sig_len [9]) = Except.ok false ∧
    CryptoProvider.verify opensslRejectingVerifier provDil [5] [9] =
      Except.error (SafeQuantaError.Crypto "Invalid signature") := by
  have hmain := c8_verify_error_discipline provDil [0]
    opensslRejectingVerifier [5] (padTo dilithium3_sig_len [9])
  have hlen : (padTo dilithium3_sig_len [9]).length = dilithium3_sig_len :=
    padTo_length _ _
  have hok := (hmain.1 rfl rfl).2 hlen
  have hprim : dilithium3_verify_prim (padTo dilithium3_sig_len [9]) [5] [0] =
      false := by decide
  have htrunc := ((c8_verify_error_discipline provDil [0]
    opensslRejectingVerifier [5] [9]).1 rfl rfl).1 (by decide)
  exact ⟨rfl, rfl, hlen, by rw [hok, hprim], htrunc⟩

/-- Counterexample for C9: the claim states sign fails with a Crypto
error when a classical fallback is configured without a signing key.  The
provider built by new for Rsa3072 has no post-quantum signing key, yet
sign succeeds: the Rsa3072 branch never consults sign_secret_key and
signs with the classical private_key through openssl. -/
theorem c9_counterexample :
    provRsa.signature_algorithm = SignatureAlgorithm.Rsa3072 ∧
    provRsa.sign_secret_key = none ∧
    CryptoProvider.sign opensslSigner provRsa [7, 8] =
      Except.ok [0, 7, 8] :=
  ⟨rfl, rfl, rfl⟩

/-- C9 as amended: sign dispatches on the configured algorithm; for
Dilithium3 it fails with a Crypto error exactly when no signing secret
key is loaded and otherwise signs with that key; for Rsa3072 it ignores
the post-quantum signing key entirely, signing with the classical
private_key, and never fails with a Crypto error (openssl failures
surface as OpenSsl errors). -/
theorem c9_sign_key_requirements (self : CryptoProvider)
    (signer : Bytes → Bytes → Except String Bytes) (data : Bytes) :
    (self.signature_algorithm = SignatureAlgorithm.Dilithium3 →
      ((self.sign_secret_key = none →
        CryptoProvider.sign signer self data =
          Except.error (SafeQuantaError.Crypto "No signing key available")) ∧
       (∀ sk, self.sign_secret_key = some sk →
        CryptoProvider.sign signer self data =
          Except.ok (dilithium3_sign_prim data sk)))) ∧
    (self.signature_algorithm = SignatureAlgorithm.Rsa3072 →
      (isCryptoError (CryptoProvider.sign signer self data) = false ∧
       (∀ sig, signer self.private_key data = Except.ok sig →
        CryptoProvider.sign signer self data = Except.ok sig))) := by
  constructor
  · intro halg
    constructor
    · intro hnone
      simp [CryptoProvider.sign, halg, CryptoProvider.dilithium3_sign, hnone]
    · intro sk hsk
      simp [CryptoProvider.sign, halg, CryptoProvider.dilithium3_sign, hsk]
  · intro halg
    constructor
    · simp only [CryptoProvider.sign, halg, CryptoProvider.rsa3072_sign]
      cases hv : signer self.private_key data <;> simp [isCryptoError]
    · intro sig hsig
      simp [CryptoProvider.sign, halg, CryptoProvider.rsa3072_sign, hsig]

/-- Witness for C9: the Dilithium3 provider has its generated signing
key, and sign succeeds with the primitive signature; a Dilithium3
provider stripped of its signing key gets exactly the Crypto error. -/
theorem c9_witness :
    provDil.signature_algorithm = SignatureAlgorithm.Dilithium3 ∧
    provDil.sign_secret_key = some [0] ∧
    CryptoProvider.sign opensslSigner provDil [1, 2] =
      Except.ok (dilithium3_sign_prim [1, 2] [0]) ∧
    CryptoProvider.sign opensslSigner
      { provDil with sign_secret_key := none } [1, 2] =
      Except.error (SafeQuantaError.Crypto "No signing key available") := by
  refine ⟨rfl, rfl, ?_, ?_⟩
  · exact ((c9_sign_key_requirements provDil opensslSigner [1, 2]).1
      rfl).2 [0] rfl
  · exact ((c9_sign_key_requirements
      { provDil with sign_secret_key := none } opensslSigner [1, 2]).1
      rfl).1 rfl

/-- C10: the spec-modelled FallbackPolicy.decide satisfies all five
clauses of the claim: a capable peer always proceeds with the hybrid
handshake regardless of strategy; for a non-capable peer, Reject yields
Reject, Redirect yields Redirect(P) when port P is configured and Reject
when none is, and ClassicTls always proceeds with the classical-only
handshake (in particular never Reject). -/
theorem c10_fallback_decide (strategy : FallbackStrategy)
    (p : Option Nat) (port : Nat) :
    FallbackPolicy.decide true strategy p = FallbackDecision.ProceedHybrid ∧
    FallbackPolicy.decide false FallbackStrategy.Reject p =
      FallbackDecision.Reject ∧
    FallbackPolicy.decide false FallbackStrategy.Redirect (some port) =
      FallbackDecision.Redirect port ∧
    FallbackPolicy.decide false FallbackStrategy.Redirect none =
      FallbackDecision.Reject ∧
    FallbackPolicy.decide false FallbackStrategy.ClassicTls p =
      FallbackDecision.ClassicTls :=
  ⟨rfl, rfl, rfl, rfl, rfl⟩
